import Mathlib

/-!
Shallow embedding of `es_mcp_server.py` (an Elasticsearch MCP server).

JSON-like values returned by the Elasticsearch client and built by the
server are modelled by `JVal`.  Python dicts are modelled as association
lists with Python's update semantics (`dinsert` replaces in place,
`pyDict` folds a literal `{k: v, **rest}` left to right).  Python ints
are `Int`.  Code that may raise is modelled in `Except String`; each
tool's `try/except` wrapper is the outer `match` of the tool function.
-/

inductive JVal : Type where
  | null : JVal
  | bool : Bool → JVal
  | num : Int → JVal
  | str : String → JVal
  | arr : List JVal → JVal
  | obj : List (String × JVal) → JVal

instance : Inhabited JVal := ⟨JVal.null⟩

/-- First-match lookup in an association list (Python dict lookup; dicts
have unique keys, so first match is the binding). -/
def dlookup : List (String × JVal) → String → Option JVal
  | [], _ => none
  | (k', v) :: rest, k => if k' = k then some v else dlookup rest k

/-- Python `k in d` on a dict. -/
def dhasKey (d : List (String × JVal)) (k : String) : Bool :=
  (dlookup d k).isSome

/-- Python `d[k] = v`: replace the binding in place if present, else append. -/
def dinsert : List (String × JVal) → String → JVal → List (String × JVal)
  | [], k, v => [(k, v)]
  | (k', v') :: rest, k, v =>
      if k' = k then (k, v) :: rest else (k', v') :: dinsert rest k v

/-- A Python dict literal built from a key/value sequence, later bindings
winning (the semantics of `dict(...)` / `\x7b**a, **b\x7d`). -/
def pyDict (l : List (String × JVal)) : List (String × JVal) :=
  l.foldl (fun d p => dinsert d p.1 p.2) []

def JVal.get? : JVal → String → Option JVal
  | .obj kvs, k => dlookup kvs k
  | _, _ => none

/-- Python `v.get(k, d)` where `v` is known to be a dict (total variant). -/
def JVal.getD (v : JVal) (k : String) (d : JVal) : JVal :=
  (v.get? k).getD d

/-- Python subscript `v[k]`: raises `KeyError` on a missing key and
`TypeError` on a non-dict. -/
def JVal.idx : JVal → String → Except String JVal
  | .obj kvs, k =>
      match dlookup kvs k with
      | some v => .ok v
      | none => .error ("KeyError: " ++ k)
  | _, k => .error ("TypeError: value is not subscriptable at key " ++ k)

/-- Python `v.get(k, d)`: raises `AttributeError` when `v` is not a dict. -/
def JVal.pyGet : JVal → String → JVal → Except String JVal
  | .obj kvs, k, d => .ok ((dlookup kvs k).getD d)
  | _, _, _ => .error "AttributeError: object has no attribute get"

/-- Python `v.items()`: raises when `v` is not a dict. -/
def JVal.items : JVal → Except String (List (String × JVal))
  | .obj kvs => .ok kvs
  | _ => .error "AttributeError: object has no attribute items"

/-- Python `int(v)` on a JSON value: `none` models the `ValueError` /
`TypeError` branch.  Strings are parsed, bools coerce, floats are not
modelled (the server is only ever handed integral pagination values). -/
def pyInt : JVal → Option Int
  | .num n => some n
  | .bool b => some (if b then 1 else 0)
  | .str s => s.toInt?
  | _ => none

/-- Minimal JSON string escaping (backslash, quote, common controls);
`ensure_ascii` escaping of non-ASCII characters is not modelled. -/
def jsonEscapeChar (c : Char) : String :=
  if c = '\\' then "\\\\"
  else if c = '"' then "\\\""
  else if c = '\n' then "\\n"
  else if c = '\t' then "\\t"
  else if c = '\r' then "\\r"
  else String.singleton c

def jsonEscape (s : String) : String :=
  String.join (s.toList.map jsonEscapeChar)

mutual

/-- Python `json.dumps(v)` with default separators. -/
def JVal.dumps : JVal → String
  | .null => "null"
  | .bool b => if b then "true" else "false"
  | .num n => toString n
  | .str s => "\"" ++ jsonEscape s ++ "\""
  | .arr xs => "[" ++ JVal.dumpsArr xs ++ "]"
  | .obj kvs => "\x7b" ++ JVal.dumpsObj kvs ++ "\x7d"

def JVal.dumpsArr : List JVal → String
  | [] => ""
  | [x] => x.dumps
  | x :: y :: rest => x.dumps ++ ", " ++ JVal.dumpsArr (y :: rest)

def JVal.dumpsObj : List (String × JVal) → String
  | [] => ""
  | [(k, v)] => "\"" ++ jsonEscape k ++ "\": " ++ v.dumps
  | (k, v) :: p :: rest =>
      "\"" ++ jsonEscape k ++ "\": " ++ v.dumps ++ ", " ++ JVal.dumpsObj (p :: rest)

end

def indentStr (n : Nat) : String :=
  String.join (List.replicate n " ")

mutual

/-- Python `json.dumps(v, indent=2)`, at indentation level `lvl`. -/
def JVal.dumpsInd : Nat → JVal → String
  | _, .null => "null"
  | _, .bool b => if b then "true" else "false"
  | _, .num n => toString n
  | _, .str s => "\"" ++ jsonEscape s ++ "\""
  | _, .arr [] => "[]"
  | lvl, .arr (x :: xs) =>
      "[\n" ++ JVal.dumpsIndArr (lvl + 2) (x :: xs) ++ "\n" ++ indentStr lvl ++ "]"
  | _, .obj [] => "\x7b\x7d"
  | lvl, .obj (p :: ps) =>
      "\x7b\n" ++ JVal.dumpsIndObj (lvl + 2) (p :: ps) ++ "\n" ++ indentStr lvl ++ "\x7d"

def JVal.dumpsIndArr : Nat → List JVal → String
  | _, [] => ""
  | lvl, [x] => indentStr lvl ++ JVal.dumpsInd lvl x
  | lvl, x :: y :: rest =>
      indentStr lvl ++ JVal.dumpsInd lvl x ++ ",\n" ++ JVal.dumpsIndArr lvl (y :: rest)

def JVal.dumpsIndObj : Nat → List (String × JVal) → String
  | _, [] => ""
  | lvl, [(k, v)] =>
      indentStr lvl ++ "\"" ++ jsonEscape k ++ "\": " ++ JVal.dumpsInd lvl v
  | lvl, (k, v) :: p :: rest =>
      indentStr lvl ++ "\"" ++ jsonEscape k ++ "\": " ++ JVal.dumpsInd lvl v
        ++ ",\n" ++ JVal.dumpsIndObj lvl (p :: rest)

end

/-- Python `str(v)` as used in f-strings; scalars only are rendered
faithfully (nested containers would use `repr`, which no code path in the
claims exercises). -/
def pyStr : JVal → String
  | .null => "None"
  | .bool b => if b then "True" else "False"
  | .num n => toString n
  | .str s => s
  | v => v.dumps

/-!  The Elasticsearch client handle (`ctx.request_context.lifespan_context.client`).
Each operation the server invokes is a field; the `Except` layer models the
exceptions the Python client may raise, which every tool/resource catches. -/

structure ESClient where
  catIndices : Except String (List JVal)
  getMapping : String → Except String JVal
  searchReq : List (String × JVal) → Except String JVal
  searchBody : String → List (String × JVal) → Except String JVal
  indicesExists : String → Except String Bool
  indicesGet : String → Except String JVal
  indicesStats : String → Except String JVal

/-! ## `list_indices` tool (es_mcp_server.py lines 67-108) -/

/-- `page_size if page_size is not None and page_size > 0 else 10`. -/
def toolPageSize (page_size : Option Int) : Int :=
  match page_size with
  | some ps => if 0 < ps then ps else 10
  | none => 10

/-- `page if page is not None and page > 0 else 1`. -/
def toolPage (page : Option Int) : Int :=
  match page with
  | some p => if 0 < p then p else 1
  | none => 1

/-- `math.ceil(total_indices / current_page_size)`, exact for the positive
page sizes both call sites guarantee. -/
def totalPagesOf (total : Nat) (ps : Int) : Int :=
  (((total + ps.toNat - 1) / ps.toNat : Nat) : Int)

/-- `max(1, min(current_page, total_pages if total_pages > 0 else 1))`. -/
def appliedPage (total : Nat) (ps page : Int) : Int :=
  max 1 (min page (if 0 < totalPagesOf total ps then totalPagesOf total ps else 1))

/-- One entry of `indices_info`: the five `index.get(...)` projections of a
catalog row (Python `dict.get` yields `None` for a missing key). -/
def indexInfoOf (e : JVal) : JVal :=
  .obj [("index", e.getD "index" .null),
        ("health", e.getD "health" .null),
        ("status", e.getD "status" .null),
        ("docs_count", e.getD "docs.count" .null),
        ("size", e.getD "store.size" .null)]

structure IndicesDigest where
  total_indices : Nat
  current_page : Int
  page_size : Int
  total_pages : Int
  indices_on_page : Nat
  indices : List JVal

/-- The shared pagination block (lines 79-104, duplicated verbatim at
lines 302-316): total pages, clamped page, slice `[start:start+ps]`,
projected rows, and the `response_data` counters. -/
def paginateDigest (catalog : List JVal) (page ps : Int) : IndicesDigest :=
  let total_indices := catalog.length
  let total_pages := totalPagesOf total_indices ps
  let current_page := appliedPage total_indices ps page
  let start_index := ((current_page - 1) * ps).toNat
  let paginated := (catalog.drop start_index).take ps.toNat
  let indices_info := paginated.map indexInfoOf
  ⟨total_indices, current_page, ps, total_pages, indices_info.length, indices_info⟩

/-- `list_indices` up to the empty-catalog early return: `none` is the
`"No indices found."` branch. -/
def list_indices_core (catalog : List JVal) (page page_size : Option Int) :
    Option IndicesDigest :=
  if catalog.isEmpty then none
  else some (paginateDigest catalog (toolPage page) (toolPageSize page_size))

def digestToJVal (d : IndicesDigest) : JVal :=
  .obj [("total_indices", .num d.total_indices),
        ("current_page", .num d.current_page),
        ("page_size", .num d.page_size),
        ("total_pages", .num d.total_pages),
        ("indices_on_page", .num d.indices_on_page),
        ("indices", .arr d.indices)]

/-- The tool's success string: header f-string plus `json.dumps(..., indent=2)`. -/
def renderIndicesDigest (d : IndicesDigest) : String :=
  "Showing page " ++ toString d.current_page ++ " of " ++ toString d.total_pages
    ++ " (" ++ toString d.indices_on_page ++ " of " ++ toString d.total_indices
    ++ " total indices)\n\n" ++ JVal.dumpsInd 0 (digestToJVal d)

def list_indices_body (es : ESClient) (page page_size : Option Int) :
    Except String String := do
  let catalog ← es.catIndices
  match list_indices_core catalog page page_size with
  | none => pure "No indices found."
  | some d => pure (renderIndicesDigest d)

/-- The `list_indices` tool: body plus the `except` clause. -/
def list_indices (es : ESClient) (page page_size : Option Int) : String :=
  match list_indices_body es page page_size with
  | .ok s => s
  | .error e => "Error listing indices: " ++ e

/-! ## `list_indices_resource` (lines 260-321); modelled at the JSON-value
level: the Python function returns `json.dumps` of the objects built here. -/

/-- `params_source.get(k)` followed by the `is not None` test (a present
`null` value behaves like a missing key). -/
def rawParam (ti : List (String × JVal)) (k : String) : Option JVal :=
  match dlookup ti k with
  | some JVal.null => none
  | o => o

/-- `try: p = int(raw) except (ValueError, TypeError): keep default`. -/
def parseParam (dflt : Int) (raw : Option JVal) : Int :=
  match raw with
  | none => dflt
  | some v => (pyInt v).getD dflt

/-- Lines 263-291: defaults 1/10, optional parse from `tool_input`, then the
non-positive resets. -/
def resourceParams (tool_input : Option (List (String × JVal))) : Int × Int :=
  let page : Int := 1
  let page_size : Int := 10
  let (page, page_size) :=
    match tool_input with
    | some ti =>
        (parseParam page (rawParam ti "page"), parseParam page_size (rawParam ti "page_size"))
    | none => (page, page_size)
  let page_size := if page_size ≤ 0 then 10 else page_size
  let page := if page ≤ 0 then 1 else page
  (page, page_size)

def errorObj (msg : String) : JVal :=
  .obj [("error", .str msg)]

/-- The zero-filled digest returned when the catalog is empty (lines 296-300);
note it echoes the requested, unclamped `page`. -/
def zeroIndicesDigest (page page_size : Int) : JVal :=
  .obj [("total_indices", .num 0), ("current_page", .num page),
        ("page_size", .num page_size), ("total_pages", .num 0),
        ("indices_on_page", .num 0), ("indices", .arr [])]

def list_indices_resource_body (es : ESClient) (page page_size : Int) :
    Except String JVal := do
  let catalog ← es.catIndices
  if catalog.isEmpty then
    pure (zeroIndicesDigest page page_size)
  else
    pure (digestToJVal (paginateDigest catalog page page_size))

/-- The `elasticsearch://indices` resource: defensive context check, parameter
resolution, body, and the `except` clause. -/
def list_indices_resource (ctxOk : Bool)
    (tool_input : Option (List (String × JVal))) (es : ESClient) : JVal :=
  if !ctxOk then
    errorObj "Internal server error: Context or ES client not initialized"
  else
    let (page, page_size) := resourceParams tool_input
    match list_indices_resource_body es page page_size with
    | .ok v => v
    | .error e => errorObj ("Error listing indices: " ++ e)

/-! ## `get_mappings` tool (lines 110-119) -/

def get_mappings_body (es : ESClient) (index : String) : Except String String := do
  let mapping_response ← es.getMapping index
  let level1 ← mapping_response.pyGet index (.obj [])
  let mappings ← level1.pyGet "mappings" (.obj [])
  pure ("Mappings for index: " ++ index ++ "\n\n" ++ JVal.dumpsInd 0 mappings)

def get_mappings (es : ESClient) (index : String) : String :=
  match get_mappings_body es index with
  | .ok s => s
  | .error e => "Error: " ++ e

/-! ## `search` tool (lines 121-157) -/

/-- `field_data.get('type') == 'text'` (Python `==` against a non-string is
`False`). -/
def isTextType (fd : JVal) : Bool :=
  match fd.get? "type" with
  | some (.str s) => s == "text"
  | _ => false

/-- `field_data.get('type') == 'text' or 'dense_vector' in field_data`. -/
def fieldQualifies (fd : JVal) : Bool :=
  isTextType fd || (match fd with | .obj kvs => dhasKey kvs "dense_vector" | _ => false)

/-- The `text_fields` dict: iterate `index_mappings['properties'].items()`
and keep qualifying fields (mapped to `\x7b\x7d`).  A mapping without a
`properties` key contributes nothing. -/
def computeTextFields (m : JVal) : List (String × JVal) :=
  match m.get? "properties" with
  | some (.obj props) =>
      (props.filter fun p => fieldQualifies p.2).map fun p => (p.1, JVal.obj [])
  | _ => []

/-- The highlight block installed when `text_fields` is non-empty. -/
def highlightBlock (m : JVal) : JVal :=
  .obj [("fields", .obj (computeTextFields m)),
        ("pre_tags", .arr [.str "<em>"]),
        ("post_tags", .arr [.str "</em>"])]

/-- Lines 127-138: `search_request = \x7b"index": index, **query_body\x7d`
followed by the conditional `search_request["highlight"] = ...`. -/
def buildSearchRequest (index : String) (query_body : List (String × JVal))
    (m : JVal) : List (String × JVal) :=
  let req := pyDict (("index", JVal.str index) :: query_body)
  if (computeTextFields m).isEmpty then req
  else dinsert req "highlight" (highlightBlock m)

/-- Line 141: `total['value'] if isinstance(total, dict) else total`. -/
def extractTotal (total : JVal) : Except String JVal :=
  match total with
  | .obj kvs => JVal.idx (.obj kvs) "value"
  | v => .ok v

/-- Python `sep.join(l)`. -/
def joinSep (sep : String) : List String → String
  | [] => ""
  | [x] => x
  | x :: y :: rest => x ++ sep ++ joinSep sep (y :: rest)

def mkHighlightLine (field : String) (frags : List String) : String :=
  field ++ " (highlighted): " ++ joinSep " ... " frags

def mkSourceLine (field : String) (v : JVal) : String :=
  field ++ ": " ++ v.dumps

/-- Lines 146-152, translated loop for loop: first the highlighted
fragments (skipping empty fragment lists), then every source field that is
not a key of the hit's `highlight` dict. -/
def hitTextLoop (highlight : List (String × List String))
    (source : List (String × JVal)) : List String :=
  let l1 := highlight.foldl
    (fun acc p => if !p.2.isEmpty then acc ++ [mkHighlightLine p.1 p.2] else acc) []
  source.foldl
    (fun acc p =>
      if !(highlight.any fun q => q.1 == p.1) then acc ++ [mkSourceLine p.1 p.2]
      else acc) l1

/-- Line 154: `"\n\n---\n\n".join(response)` with the header first. -/
def renderSearchResponse (header : String) (hitTexts : List String) : String :=
  joinSep "\n\n---\n\n" (header :: hitTexts)

/-- A hit's `highlight` dict with each fragment list read as a list of
strings (`' ... '.join` only accepts strings). -/
def readFragments : JVal → Except String (List String)
  | .arr xs => xs.foldr
      (fun x acc => do
        match x with
        | .str s => pure (s :: (← acc))
        | _ => .error "TypeError: sequence item: expected str instance")
      (pure [])
  | _ => .error "TypeError: object is not iterable"

def readHighlightDict (v : JVal) : Except String (List (String × List String)) := do
  let kvs ← v.items
  kvs.foldr
    (fun p acc => do pure ((p.1, ← readFragments p.2) :: (← acc)))
    (pure [])

/-- One hit (lines 143-153): `hit.get('highlight', \x7b\x7d)`,
`hit.get('_source', \x7b\x7d)`, then the two formatting loops. -/
def formatHit (hit : JVal) : Except String String := do
  let highlighted_fields ← readHighlightDict (← hit.pyGet "highlight" (.obj []))
  let source_data ← (← hit.pyGet "_source" (.obj [])).items
  pure (joinSep "\n" (hitTextLoop highlighted_fields source_data))

def search_body (es : ESClient) (index : String)
    (query_body : List (String × JVal)) : Except String String := do
  let mapping_response ← es.getMapping index
  let level1 ← mapping_response.pyGet index (.obj [])
  let index_mappings ← level1.pyGet "mappings" (.obj [])
  let search_request := buildSearchRequest index query_body index_mappings
  let result ← es.searchReq search_request
  let from_value := (dlookup query_body "from").getD (.num 0)
  let hits_obj ← result.idx "hits"
  let total ← hits_obj.idx "total"
  let total_hits ← extractTotal total
  let hits_val ← hits_obj.idx "hits"
  let hits ← (match hits_val with
    | .arr xs => .ok xs
    | _ => .error "TypeError: object is not iterable")
  let header := "Total results: " ++ pyStr total_hits ++ ", showing "
    ++ toString hits.length ++ " from position " ++ pyStr from_value
  let hitTexts ← hits.foldr
    (fun h acc => do pure ((← formatHit h) :: (← acc))) (pure [])
  pure (renderSearchResponse header hitTexts)

def search (es : ESClient) (index : String) (query_body : List (String × JVal)) :
    String :=
  match search_body es index query_body with
  | .ok s => s
  | .error e => "Error: " ++ e

/-! ## `search_with_query_string` tool (lines 159-189) -/

/-- Lines 170-176: the query dict, with the `_source` projection added only
for a truthy `fields` other than the `"_source"` sentinel. -/
def buildQueryStringQuery (query_text fields : String) (size from_ : Int) :
    List (String × JVal) :=
  let query : List (String × JVal) :=
    [("query", .obj [("query_string", .obj [("query", .str query_text)])]),
     ("size", .num size),
     ("from", .num from_)]
  if fields ≠ "" ∧ fields ≠ "_source" then
    dinsert query "_source" (.arr ((fields.splitOn ",").map JVal.str))
  else query

def search_with_query_string_body (es : ESClient) (index_name query_text : String)
    (fields : String) (size from_ : Int) : Except String String := do
  let query := buildQueryStringQuery query_text fields size from_
  let results ← es.searchBody index_name query
  let hits_obj ← results.idx "hits"
  let hits_val ← hits_obj.idx "hits"
  let hits ← (match hits_val with
    | .arr xs => .ok xs
    | _ => .error "TypeError: object is not iterable")
  let total_val ← (← hits_obj.idx "total").idx "value"
  let total ← (match total_val with
    | .num n => .ok n
    | _ => .error "TypeError: total is not a number")
  let header := "Found " ++ toString total ++ " documents. Showing "
    ++ toString (from_ + 1) ++ "-" ++ toString (min (from_ + size) total) ++ ":\n\n"
  let body ← (List.range hits.length).foldr
    (fun i acc => do
      let hit := hits.getD i .null
      let score ← hit.idx "_score"
      let hid ← hit.idx "_id"
      let src ← hit.idx "_source"
      pure (("Result " ++ toString (from_ + (i + 1 : Nat)) ++ ". Score: " ++ pyStr score
        ++ "\nID: " ++ pyStr hid ++ "\nContent:\n" ++ JVal.dumpsInd 0 src ++ "\n\n")
        ++ (← acc)))
    (pure "")
  pure (header ++ body)

def search_with_query_string (es : ESClient) (index_name query_text : String)
    (fields : String) (size from_ : Int) : String :=
  match search_with_query_string_body es index_name query_text fields size from_ with
  | .ok s => s
  | .error e => "Error searching index " ++ index_name ++ ": " ++ e

/-! ## `get_index_stats` tool (lines 191-204) -/

/-- `round`-half-to-even of `b * 100 / 1048576`: the number of hundredths of
a MiB in `b` bytes.  Python's float detour is modelled as exact rational
rounding. -/
def mbHundredths (b : Int) : Int :=
  let n := b * 100
  let d : Int := 1048576
  let q := n / d
  let r := n % d
  if 2 * r < d then q
  else if d < 2 * r then q + 1
  else if q % 2 = 0 then q else q + 1

/-- `f"...size_in_bytes... / 1024 / 1024:.2f"`: two-decimal rendering. -/
def formatMB (b : Int) : String :=
  let h := mbHundredths b
  let whole := h / 100
  let frac := (h % 100).toNat
  toString whole ++ "." ++ (if frac < 10 then "0" else "") ++ toString frac

def get_index_stats_body (es : ESClient) (index_name : String) :
    Except String String := do
  let stats ← es.indicesStats index_name
  let primaries ← (← stats.idx "_all").idx "primaries"
  let docsCount ← (← primaries.idx "docs").idx "count"
  let sizeVal ← (← primaries.idx "store").idx "size_in_bytes"
  let sizeBytes ← (match sizeVal with
    | .num n => .ok n
    | _ => .error "TypeError: unsupported operand type for division")
  let indexTotal ← (← primaries.idx "indexing").idx "index_total"
  let queryTotal ← (← primaries.idx "search").idx "query_total"
  pure ("Statistics for index: " ++ index_name ++ "\n\n"
    ++ "Documents: " ++ pyStr docsCount ++ "\n"
    ++ "Size: " ++ formatMB sizeBytes ++ " MB\n"
    ++ "Indexing operations: " ++ pyStr indexTotal ++ "\n"
    ++ "Search operations: " ++ pyStr queryTotal ++ "\n")

def get_index_stats (es : ESClient) (index_name : String) : String :=
  match get_index_stats_body es index_name with
  | .ok s => s
  | .error e => "Error getting stats for index " ++ index_name ++ ": " ++ e

/-! ## `get_index_resource` (lines 207-231), at the JSON-value level: the
Python function returns `json.dumps` of the objects built here (and a bare
string for a missing index, modelled as `.str`). -/

def get_index_resource_body (es : ESClient) (index_name : String) :
    Except String JVal := do
  let ex ← es.indicesExists index_name
  if !ex then
    pure (.str ("Index '" ++ index_name ++ "' does not exist"))
  else
    let index_info ← es.indicesGet index_name
    let stats ← es.indicesStats index_name
    let settings ← (← index_info.pyGet index_name (.obj [])).pyGet "settings" (.obj [])
    let primaries ← (← stats.idx "_all").idx "primaries"
    let docsCount ← (← primaries.idx "docs").idx "count"
    let sizeVal ← (← primaries.idx "store").idx "size_in_bytes"
    let sizeBytes ← (match sizeVal with
      | .num n => .ok n
      | _ => .error "TypeError: unsupported operand type for division")
    -- `round(size_in_bytes/1024/1024, 2)` is a float; `JVal` has no float
    -- constructor, so `size_mb` is stored scaled by 100 (hundredths of a
    -- MiB); no claim depends on this field's value.
    pure (.obj [("name", .str index_name), ("settings", settings),
      ("stats", .obj [("docs_count", docsCount),
                      ("size_bytes", .num sizeBytes),
                      ("size_mb", .num (mbHundredths sizeBytes))])])

def get_index_resource (ctxOk : Bool) (es : ESClient) (index_name : String) : JVal :=
  if !ctxOk then errorObj "Internal server error: Context not initialized"
  else
    match get_index_resource_body es index_name with
    | .ok v => v
    | .error e => errorObj ("Error retrieving index information: " ++ e)

/-! ## `get_mapping_resource` (lines 233-258), at the JSON-value level. -/

def get_mapping_resource_body (es : ESClient) (index_name : String) :
    Except String JVal := do
  let ex ← es.indicesExists index_name
  if !ex then
    pure (.str ("Index '" ++ index_name ++ "' does not exist"))
  else
    let mapping_response ← es.getMapping index_name
    let mappings ← (← mapping_response.pyGet index_name (.obj [])).pyGet "mappings" (.obj [])
    let hasProps ← (match mappings with
      | .obj kvs => .ok (dhasKey kvs "properties")
      | _ => .error "TypeError: argument is not a container")
    let field_count ← (if hasProps then
        match mappings.get? "properties" with
        | some (.obj props) => .ok props.length
        | some (.arr xs) => .ok xs.length
        | some (.str s) => .ok s.length
        | _ => .error "TypeError: object has no len()"
      else .ok (0 : Nat))
    let field_types ← (if hasProps then do
        let propsVal ← mappings.idx "properties"
        let props ← propsVal.items
        props.foldlM (fun (acc : List (String × JVal)) p => do
          let ftVal ← p.2.pyGet "type" (.str "unknown")
          let ft ← (match ftVal with
            | .str s => Except.ok s
            | _ => Except.error "non-string mapping type (not modelled as a dict key)")
          let cur : Int := match dlookup acc ft with | some (.num n) => n | _ => 0
          pure (dinsert acc ft (.num (cur + 1)))) []
      else pure [])
    pure (.obj [("index", .str index_name), ("mappings", mappings),
                ("field_count", .num field_count),
                ("field_types", .obj field_types)])

def get_mapping_resource (ctxOk : Bool) (es : ESClient) (index_name : String) : JVal :=
  if !ctxOk then errorObj "Internal server error: Context not initialized"
  else
    match get_mapping_resource_body es index_name with
    | .ok v => v
    | .error e => errorObj ("Error retrieving mapping information: " ++ e)

/-! ## Concrete fixtures used by witnesses and counterexamples -/

/-- An `ESClient` whose catalog fetch succeeds with `c` and whose every
other operation fails (only the catalog is consulted by `list_indices`). -/
def esWithCatalog (c : List JVal) : ESClient :=
  ⟨.ok c, fun _ => .error "offline", fun _ => .error "offline",
   fun _ _ => .error "offline", fun _ => .error "offline",
   fun _ => .error "offline", fun _ => .error "offline"⟩

/-- An `ESClient` whose every operation raises. -/
def esBad : ESClient :=
  ⟨.error "boom", fun _ => .error "boom", fun _ => .error "boom",
   fun _ _ => .error "boom", fun _ => .error "boom",
   fun _ => .error "boom", fun _ => .error "boom"⟩

/-- The `cat.indices` row for a single index `articles` holding 25
documents (the `cat` API reports counts and sizes as strings). -/
def articlesEntry : JVal :=
  .obj [("index", .str "articles"), ("health", .str "green"),
        ("status", .str "open"), ("docs.count", .str "25"),
        ("store.size", .str "1mb")]

/-- A mapping with one text field, used to exercise the highlight logic. -/
def mapWithText : JVal :=
  .obj [("properties", .obj [("title", .obj [("type", .str "text")]),
                             ("price", .obj [("type", .str "float")])])]

/-! ## Helper lemmas on the dict model -/

lemma dlookup_dinsert (d : List (String × JVal)) (k : String) (v : JVal)
    (k' : String) :
    dlookup (dinsert d k v) k' = if k = k' then some v else dlookup d k' := by
  induction d with
  | nil => simp [dinsert, dlookup]
  | cons hd tl ih =>
      obtain ⟨k₀, v₀⟩ := hd
      by_cases h0 : k₀ = k
      · subst h0
        by_cases h1 : k₀ = k'
        · subst h1; simp [dinsert, dlookup]
        · simp [dinsert, dlookup, h1]
      · by_cases h1 : k₀ = k'
        · subst h1
          simp [dinsert, dlookup, h0]
          rw [if_neg (fun h2 => h0 h2.symm)]
        · simp [dinsert, dlookup, h0, h1, ih]

lemma dlookup_eq_none_of_not_mem (l : List (String × JVal)) (k : String)
    (h : k ∉ l.map Prod.fst) : dlookup l k = none := by
  induction l with
  | nil => rfl
  | cons hd tl ih =>
      simp only [List.map_cons, List.mem_cons] at h
      push_neg at h
      simp only [dlookup]
      rw [if_neg (fun hq => h.1 hq.symm), ih h.2]

lemma dlookup_foldl_dinsert (l : List (String × JVal))
    (hnd : (l.map Prod.fst).Nodup) (d : List (String × JVal)) (k : String) :
    dlookup (l.foldl (fun d p => dinsert d p.1 p.2) d) k
      = match dlookup l k with
        | some v => some v
        | none => dlookup d k := by
  induction l generalizing d with
  | nil => simp [dlookup]
  | cons hd tl ih =>
      obtain ⟨k₀, v₀⟩ := hd
      simp only [List.map_cons, List.nodup_cons] at hnd
      rw [List.foldl_cons, ih hnd.2]
      by_cases h0 : k₀ = k
      · subst h0
        rw [dlookup_eq_none_of_not_mem tl k₀ hnd.1]
        simp [dlookup, dlookup_dinsert]
      · simp [dlookup, h0, dlookup_dinsert]

lemma dhasKey_dinsert (d : List (String × JVal)) (k : String) (v : JVal)
    (k' : String) :
    dhasKey (dinsert d k v) k' = ((k == k') || dhasKey d k') := by
  simp only [dhasKey, dlookup_dinsert]
  by_cases h : k = k' <;> simp [h]

lemma dhasKey_foldl_dinsert (l : List (String × JVal))
    (d : List (String × JVal)) (k : String) :
    dhasKey (l.foldl (fun d p => dinsert d p.1 p.2) d) k
      = (l.any (fun p => p.1 == k) || dhasKey d k) := by
  induction l generalizing d with
  | nil => simp
  | cons hd tl ih =>
      rw [List.foldl_cons, ih, dhasKey_dinsert]
      simp [Bool.or_assoc, Bool.or_comm, Bool.or_left_comm]

lemma dhasKey_eq_any (l : List (String × JVal)) (k : String) :
    dhasKey l k = l.any (fun p => p.1 == k) := by
  induction l with
  | nil => rfl
  | cons hd tl ih =>
      obtain ⟨k₀, v₀⟩ := hd
      simp only [dhasKey, dlookup, List.any_cons] at ih ⊢
      by_cases h : k₀ = k
      · subst h; simp
      · simp [h, ih]

/-! ## Helper lemmas on the hit formatter -/

lemma foldl_append_if {α : Type} (f : α → String) (q : α → Bool) :
    ∀ (l : List α) (acc : List String),
      l.foldl (fun acc x => if q x then acc ++ [f x] else acc) acc
        = acc ++ (l.filter q).map f := by
  intro l
  induction l with
  | nil => intro acc; simp
  | cons x t ih =>
      intro acc
      rw [List.foldl_cons]
      cases hq : q x <;> simp [hq, ih, List.filter_cons]

/-- The two formatting loops in closed form: highlighted lines for the
non-empty fragment lists, then raw lines for the source fields that are not
keys of the highlight dict. -/
lemma hitTextLoop_eq (h : List (String × List String))
    (s : List (String × JVal)) :
    hitTextLoop h s
      = (h.filter fun p => !p.2.isEmpty).map (fun p => mkHighlightLine p.1 p.2)
        ++ (s.filter fun p => !(h.any fun q => q.1 == p.1)).map
             (fun p => mkSourceLine p.1 p.2) := by
  unfold hitTextLoop
  rw [foldl_append_if (fun p => mkHighlightLine p.1 p.2) (fun p => !p.2.isEmpty) h []]
  rw [foldl_append_if (fun p => mkSourceLine p.1 p.2)
        (fun p => !(h.any fun q => q.1 == p.1)) s]
  simp

/-! ## Arithmetic lemmas for pagination -/

lemma ceil_div_nat (n m : Nat) (hm : 0 < m) :
    ((n + m - 1) / m : Nat) = ⌈(n : ℚ) / (m : ℚ)⌉₊ := by
  have hmq : (0 : ℚ) < (m : ℚ) := by exact_mod_cast hm
  set c := ⌈(n : ℚ) / (m : ℚ)⌉₊ with hc
  apply le_antisymm
  · have hle : (n : ℚ) / (m : ℚ) ≤ (c : ℚ) := Nat.le_ceil _
    have hnq : (n : ℚ) ≤ (c : ℚ) * (m : ℚ) := (div_le_iff₀ hmq).1 hle
    have hnm : n ≤ c * m := by exact_mod_cast hnq
    have : (n + m - 1) / m < c + 1 := by
      rw [Nat.div_lt_iff_lt_mul hm]
      have : (c + 1) * m = c * m + m := by ring
      omega
    omega
  · rw [hc, Nat.ceil_le, div_le_iff₀ hmq]
    have h1 := Nat.div_add_mod (n + m - 1) m
    have h2 := Nat.mod_lt (n + m - 1) hm
    set q := (n + m - 1) / m with hq
    have key : n ≤ m * q := by
      generalize m * q = a at h1
      omega
    calc (n : ℚ) ≤ ((m * q : Nat) : ℚ) := by exact_mod_cast key
      _ = (q : ℚ) * (m : ℚ) := by push_cast; ring

lemma totalPagesOf_eq_ceil (n : Nat) (ps : Int) (hps : 0 < ps) :
    totalPagesOf n ps = ⌈(n : ℚ) / (ps : ℚ)⌉ := by
  have hm : 0 < ps.toNat := by omega
  have hcast : ((ps.toNat : ℚ)) = (ps : ℚ) := by
    have : ((ps.toNat : Int)) = ps := Int.toNat_of_nonneg hps.le
    exact_mod_cast this
  have hnn : (0 : ℚ) ≤ (n : ℚ) / (ps.toNat : ℚ) := by positivity
  unfold totalPagesOf
  rw [ceil_div_nat n ps.toNat hm]
  rw [← hcast]
  exact_mod_cast Int.natCast_ceil_eq_ceil hnn

lemma totalPagesOf_pos (n : Nat) (ps : Int) (hn : 0 < n) (hps : 0 < ps) :
    0 < totalPagesOf n ps := by
  have hm : 0 < ps.toNat := by omega
  unfold totalPagesOf
  have : 1 ≤ (n + ps.toNat - 1) / ps.toNat := (Nat.one_le_div_iff hm).2 (by omega)
  omega

lemma appliedPage_spec (n : Nat) (ps page : Int) (hn : 0 < n) (hps : 0 < ps) :
    1 ≤ appliedPage n ps page
    ∧ appliedPage n ps page ≤ totalPagesOf n ps
    ∧ (totalPagesOf n ps < page → appliedPage n ps page = totalPagesOf n ps)
    ∧ (page ≤ 0 → appliedPage n ps page = 1)
    ∧ (1 ≤ page → page ≤ totalPagesOf n ps → appliedPage n ps page = page) := by
  have htp := totalPagesOf_pos n ps hn hps
  unfold appliedPage
  rw [if_pos htp]
  generalize totalPagesOf n ps = tp at htp ⊢
  omega

/-- The page window starts strictly inside the catalog for any in-range page:
`(p - 1) * ps < n` when `1 ≤ p ≤ ceil(n / ps)`. -/
lemma start_lt_total (n : Nat) (ps p : Int) (hn : 0 < n) (hps : 0 < ps)
    (hp1 : 1 ≤ p) (hp2 : p ≤ totalPagesOf n ps) : (p - 1) * ps < (n : Int) := by
  have hm : 0 < ps.toNat := by omega
  have hkey : ps.toNat * ((n + ps.toNat - 1) / ps.toNat) ≤ n + ps.toNat - 1 := by
    have h1 := Nat.div_add_mod (n + ps.toNat - 1) ps.toNat
    generalize ps.toNat * ((n + ps.toNat - 1) / ps.toNat) = a at h1
    omega
  unfold totalPagesOf at hp2
  set q := (n + ps.toNat - 1) / ps.toNat with hq
  have hps' : (ps.toNat : Int) = ps := Int.toNat_of_nonneg hps.le
  have hNat : (q - 1) * ps.toNat < n := by
    rw [Nat.mul_comm] at hkey
    rw [Nat.sub_mul, Nat.one_mul]
    generalize q * ps.toNat = a at hkey ⊢
    omega
  have hstep : (p - 1) * ps ≤ ((q : Int) - 1) * ps :=
    mul_le_mul_of_nonneg_right (by omega) hps.le
  have hlast : ((q : Int) - 1) * ps < (n : Int) := by
    rcases Nat.eq_zero_or_pos q with h0 | h0
    · have hn' : (0 : Int) < (n : Int) := by exact_mod_cast hn
      rw [h0]
      push_cast
      nlinarith
    · have hcast2 : ((q : Int) - 1) = ((q - 1 : Nat) : Int) := by omega
      rw [hcast2, ← hps']
      exact_mod_cast hNat
  exact lt_of_le_of_lt hstep hlast

/-- Length of the slice `catalog[start : start + ps]` for an in-range page. -/
lemma slice_length (catalog : List JVal) (ps p : Int)
    (hn : 0 < catalog.length) (hps : 0 < ps) (hp1 : 1 ≤ p)
    (hp2 : p ≤ totalPagesOf catalog.length ps) :
    (((catalog.drop ((p - 1) * ps).toNat).take ps.toNat).length : Int)
      = min ps ((catalog.length : Int) - (p - 1) * ps) := by
  have hlt := start_lt_total catalog.length ps p hn hps hp1 hp2
  have hnn : 0 ≤ (p - 1) * ps := mul_nonneg (by omega) hps.le
  rw [List.length_take, List.length_drop]
  generalize hgen : (p - 1) * ps = a at hlt hnn ⊢
  omega

lemma list_indices_core_some (catalog : List JVal) (page page_size : Option Int)
    (hc : catalog ≠ []) :
    list_indices_core catalog page page_size
      = some (paginateDigest catalog (toolPage page) (toolPageSize page_size)) := by
  cases catalog with
  | nil => exact absurd rfl hc
  | cons x t => rfl

lemma paginateDigest_fields (c : List JVal) (page ps : Int) :
    (paginateDigest c page ps).total_pages = totalPagesOf c.length ps
    ∧ (paginateDigest c page ps).current_page = appliedPage c.length ps page
    ∧ (paginateDigest c page ps).page_size = ps
    ∧ (paginateDigest c page ps).total_indices = c.length
    ∧ (paginateDigest c page ps).indices_on_page
        = ((c.drop ((appliedPage c.length ps page - 1) * ps).toNat).take
            ps.toNat).length := by
  unfold paginateDigest
  simp [List.length_map]

/-- C1: with a positive `page_size` and a catalog of `N` rows, the
`list_indices` digest reports `total_pages = ceil(N / page_size)`; for any
in-range requested page the page digest holds
`min(page_size, N - (page-1)*page_size)` entries; an empty catalog yields
the explicit `"No indices found."` message instead of an empty page. -/
theorem C1_list_indices_pagination (catalog : List JVal) (ps p : Int)
    (hps : 0 < ps) :
    (catalog = [] → ∀ es : ESClient, es.catIndices = .ok catalog →
        list_indices es (some p) (some ps) = "No indices found.")
    ∧ (∀ d : IndicesDigest, list_indices_core catalog (some p) (some ps) = some d →
        d.total_pages = ⌈(catalog.length : ℚ) / (ps : ℚ)⌉
        ∧ (1 ≤ p → p ≤ d.total_pages →
            (d.indices_on_page : Int)
              = min ps ((catalog.length : Int) - (p - 1) * ps))) := by
  have hps' : toolPageSize (some ps) = ps := by simp [toolPageSize, hps]
  constructor
  · intro hc es hes
    subst hc
    unfold list_indices list_indices_body
    rw [hes]
    rfl
  · intro d hd
    have hc : catalog ≠ [] := by
      intro h
      subst h
      simp [list_indices_core] at hd
    rw [list_indices_core_some catalog _ _ hc, hps'] at hd
    obtain rfl : paginateDigest catalog (toolPage (some p)) ps = d :=
      Option.some.inj hd
    obtain ⟨hf1, hf2, hf3, hf4, hf5⟩ :=
      paginateDigest_fields catalog (toolPage (some p)) ps
    have hn : 0 < catalog.length := List.length_pos.2 hc
    refine ⟨?_, ?_⟩
    · rw [hf1, totalPagesOf_eq_ceil catalog.length ps hps]
    · intro hp1 hp2
      have hpg : toolPage (some p) = p := by
        simp [toolPage]
        omega
      rw [hf1] at hp2
      rw [hpg] at hf5 ⊢
      have hap : appliedPage catalog.length ps p = p :=
        (appliedPage_spec catalog.length ps p hn hps).2.2.2.2 hp1 hp2
      rw [hf5, hap]
      exact slice_length catalog ps p hn hps hp1 hp2

theorem C1_witness :
    ((paginateDigest [articlesEntry] (toolPage (some 1)) 10).total_pages
        = ⌈(([articlesEntry] : List JVal).length : ℚ) / ((10 : Int) : ℚ)⌉)
    ∧ (((paginateDigest [articlesEntry] (toolPage (some 1)) 10).indices_on_page : Int)
        = min 10 ((([articlesEntry] : List JVal).length : Int) - (1 - 1) * 10))
    ∧ list_indices (esWithCatalog []) (some 1) (some 10) = "No indices found." := by
  have h := C1_list_indices_pagination [articlesEntry] 10 1 (by decide)
  have h2 := h.2 (paginateDigest [articlesEntry] (toolPage (some 1)) 10) rfl
  refine ⟨h2.1, h2.2 (by decide) (by decide), ?_⟩
  have h0 := C1_list_indices_pagination ([] : List JVal) 10 1 (by decide)
  exact h0.1 rfl (esWithCatalog []) rfl

lemma toolPageSize_pos (o : Option Int) : 0 < toolPageSize o := by
  cases o with
  | none => simp [toolPageSize]
  | some ps =>
      simp only [toolPageSize]
      split <;> omega

lemma resourceParams_some (l : List (String × JVal)) :
    resourceParams (some l)
      = (if parseParam 1 (rawParam l "page") ≤ 0 then 1
           else parseParam 1 (rawParam l "page"),
         if parseParam 10 (rawParam l "page_size") ≤ 0 then 10
           else parseParam 10 (rawParam l "page_size")) := rfl

lemma resourceParams_spec (ti : Option (List (String × JVal))) :
    1 ≤ (resourceParams ti).1 ∧ 0 < (resourceParams ti).2 := by
  cases ti with
  | none => exact ⟨by decide, by decide⟩
  | some l =>
      rw [resourceParams_some]
      constructor
      · simp only
        split <;> omega
      · simp only
        split <;> omega

/-- C2: in the `list_indices` tool and the indices-list resource, the
pagination parameters applied to the catalog slice always satisfy
`1 ≤ page ≤ total_pages` and `page_size > 0`: a requested page beyond
`total_pages` is clamped down to it, a non-positive or missing page becomes
1, and a non-positive or missing page size becomes 10, before the page
window is computed. -/
theorem C2_pagination_clamped :
    (∀ (catalog : List JVal) (page page_size : Option Int) (d : IndicesDigest),
        list_indices_core catalog page page_size = some d →
          0 < d.page_size ∧ 1 ≤ d.current_page ∧ d.current_page ≤ d.total_pages
          ∧ (∀ p, page = some p → d.total_pages < p → d.current_page = d.total_pages)
          ∧ (∀ p, page = some p → p ≤ 0 → d.current_page = 1)
          ∧ (page = none → d.current_page = 1)
          ∧ (∀ ps, page_size = some ps → ps ≤ 0 → d.page_size = 10)
          ∧ (page_size = none → d.page_size = 10))
    ∧ (∀ (catalog : List JVal) (ti : Option (List (String × JVal))),
        catalog ≠ [] →
          0 < (paginateDigest catalog (resourceParams ti).1 (resourceParams ti).2).page_size
          ∧ 1 ≤ (paginateDigest catalog (resourceParams ti).1
                    (resourceParams ti).2).current_page
          ∧ (paginateDigest catalog (resourceParams ti).1
                (resourceParams ti).2).current_page
              ≤ (paginateDigest catalog (resourceParams ti).1
                    (resourceParams ti).2).total_pages
          ∧ ((paginateDigest catalog (resourceParams ti).1
                (resourceParams ti).2).total_pages < (resourceParams ti).1 →
              (paginateDigest catalog (resourceParams ti).1
                  (resourceParams ti).2).current_page
                = (paginateDigest catalog (resourceParams ti).1
                      (resourceParams ti).2).total_pages))
    ∧ (∀ l : List (String × JVal),
        (rawParam l "page" = none → (resourceParams (some l)).1 = 1)
        ∧ (∀ v p, rawParam l "page" = some v → pyInt v = some p → p ≤ 0 →
            (resourceParams (some l)).1 = 1)
        ∧ (rawParam l "page_size" = none → (resourceParams (some l)).2 = 10)
        ∧ (∀ v ps, rawParam l "page_size" = some v → pyInt v = some ps → ps ≤ 0 →
            (resourceParams (some l)).2 = 10))
    ∧ resourceParams none = (1, 10) := by
  refine ⟨?_, ?_, ?_, rfl⟩
  · intro catalog page page_size d hd
    have hc : catalog ≠ [] := by
      intro h
      subst h
      simp [list_indices_core] at hd
    rw [list_indices_core_some catalog _ _ hc] at hd
    obtain rfl : paginateDigest catalog (toolPage page) (toolPageSize page_size) = d :=
      Option.some.inj hd
    obtain ⟨hf1, hf2, hf3, hf4, hf5⟩ :=
      paginateDigest_fields catalog (toolPage page) (toolPageSize page_size)
    have hn : 0 < catalog.length := List.length_pos.2 hc
    have hps := toolPageSize_pos page_size
    have hspec := appliedPage_spec catalog.length (toolPageSize page_size)
      (toolPage page) hn hps
    have htp := totalPagesOf_pos catalog.length (toolPageSize page_size) hn hps
    refine ⟨by rw [hf3]; exact hps, by rw [hf2]; exact hspec.1,
      by rw [hf2, hf1]; exact hspec.2.1, ?_, ?_, ?_, ?_, ?_⟩
    · intro p hp hlt
      subst hp
      rw [hf1] at hlt ⊢
      rw [hf2]
      by_cases h0 : 0 < p
      · have hq : toolPage (some p) = p := by simp [toolPage, h0]
        rw [hq] at hspec ⊢
        exact hspec.2.2.1 hlt
      · exfalso
        have hq : toolPage (some p) = 1 := by
          simp only [toolPage]
          rw [if_neg h0]
        omega
    · intro p hp hle
      subst hp
      have h1 : toolPage (some p) = 1 := by
        simp only [toolPage]
        rw [if_neg (by omega)]
      rw [hf2, h1]
      rw [h1] at hspec
      exact hspec.2.2.2.2 (le_refl 1) (by omega)
    · intro hp
      subst hp
      rw [hf2]
      have h1 : toolPage none = 1 := rfl
      rw [h1] at hspec ⊢
      exact hspec.2.2.2.2 (le_refl 1) (by omega)
    · intro ps hps' hle
      subst hps'
      rw [hf3]
      simp [toolPageSize]
      omega
    · intro hps'
      subst hps'
      rw [hf3]
      rfl
  · intro catalog ti hc
    obtain ⟨hf1, hf2, hf3, hf4, hf5⟩ :=
      paginateDigest_fields catalog (resourceParams ti).1 (resourceParams ti).2
    have hn : 0 < catalog.length := List.length_pos.2 hc
    obtain ⟨hpg, hps⟩ := resourceParams_spec ti
    have hspec := appliedPage_spec catalog.length (resourceParams ti).2
      (resourceParams ti).1 hn hps
    exact ⟨by rw [hf3]; exact hps, by rw [hf2]; exact hspec.1,
      by rw [hf2, hf1]; exact hspec.2.1,
      fun hlt => by
        rw [hf1] at hlt
        rw [hf2, hf1]
        exact hspec.2.2.1 hlt⟩
  · intro l
    rw [resourceParams_some]
    refine ⟨?_, ?_, ?_, ?_⟩
    · intro h
      simp [parseParam, h]
    · intro v p hv hp hle
      simp [parseParam, hv, hp, hle]
    · intro h
      simp [parseParam, h]
    · intro v ps hv hp hle
      simp [parseParam, hv, hp, hle]

theorem C2_witness :
    (0 < (paginateDigest [articlesEntry] (toolPage (some (-5)))
            (toolPageSize (some 0))).page_size
      ∧ (paginateDigest [articlesEntry] (toolPage (some (-5)))
            (toolPageSize (some 0))).page_size = 10
      ∧ (paginateDigest [articlesEntry] (toolPage (some (-5)))
            (toolPageSize (some 0))).current_page = 1)
    ∧ (resourceParams (some [("page", .num 7), ("page_size", .num 0)]) = (7, 10)
      ∧ (paginateDigest [articlesEntry]
            (resourceParams (some [("page", .num 7), ("page_size", .num 0)])).1
            (resourceParams (some [("page", .num 7), ("page_size", .num 0)])).2).current_page
          = (paginateDigest [articlesEntry]
                (resourceParams (some [("page", .num 7), ("page_size", .num 0)])).1
                (resourceParams (some [("page", .num 7), ("page_size", .num 0)])).2).total_pages) := by
  have h1 := C2_pagination_clamped.1 [articlesEntry] (some (-5)) (some 0)
    (paginateDigest [articlesEntry] (toolPage (some (-5))) (toolPageSize (some 0))) rfl
  have h2 := C2_pagination_clamped.2.1 [articlesEntry]
    (some [("page", .num 7), ("page_size", .num 0)]) (by simp)
  exact ⟨⟨h1.1, h1.2.2.2.2.2.2.1 0 rfl (by decide), h1.2.2.2.2.1 (-5) rfl (by decide)⟩,
    ⟨by decide, h2.2.2.2 (by decide)⟩⟩

lemma dhasKey_pyDict (l : List (String × JVal)) (k : String) :
    dhasKey (pyDict l) k = l.any (fun p => p.1 == k) := by
  unfold pyDict
  rw [dhasKey_foldl_dinsert]
  simp [dhasKey, dlookup]

/-- C3 fails as stated: a caller-supplied `"highlight"` key in `query_body`
reaches the outgoing request even when the mapping has no text or vector
field, so the request can contain a highlight block although the mapping
has none. -/
theorem C3_counterexample :
    dhasKey (buildSearchRequest "idx" [("highlight", JVal.obj [])] (JVal.obj []))
        "highlight" = true
    ∧ computeTextFields (JVal.obj []) = [] := by
  exact ⟨rfl, rfl⟩

/-- C3 (amended): the outgoing request contains a `"highlight"` key iff the
mapping yields a non-empty highlight field set or the caller's `query_body`
itself contains a `"highlight"` key; the field set is non-empty iff some
mapped field has text type or carries a `dense_vector` sub-field; and when
no field qualifies, no highlight block is added to the request. -/
theorem C3_highlight_iff (index : String) (qb : List (String × JVal)) (m : JVal) :
    (dhasKey (buildSearchRequest index qb m) "highlight" = true
      ↔ (computeTextFields m ≠ [] ∨ dhasKey qb "highlight" = true))
    ∧ (∀ props, m.get? "properties" = some (JVal.obj props) →
        (computeTextFields m ≠ [] ↔ ∃ p ∈ props, fieldQualifies p.2 = true))
    ∧ (computeTextFields m = [] →
        buildSearchRequest index qb m = pyDict (("index", JVal.str index) :: qb)) := by
  refine ⟨?_, ?_, ?_⟩
  · unfold buildSearchRequest
    by_cases h : (computeTextFields m).isEmpty
    · rw [if_pos h]
      have hmt : computeTextFields m = [] := List.isEmpty_iff.1 h
      rw [dhasKey_pyDict]
      simp [hmt, dhasKey_eq_any]
    · rw [if_neg h]
      have hk : dhasKey (dinsert (pyDict (("index", JVal.str index) :: qb))
          "highlight" (highlightBlock m)) "highlight" = true := by
        simp [dhasKey, dlookup_dinsert]
      rw [hk]
      have hne : computeTextFields m ≠ [] := by
        intro h0
        exact h (by rw [h0]; rfl)
      simp [hne]
  · intro props hp
    have hcomp : computeTextFields m
        = (props.filter fun p => fieldQualifies p.2).map (fun p => (p.1, JVal.obj [])) := by
      unfold computeTextFields
      rw [hp]
    rw [hcomp]
    constructor
    · intro hne
      have hf : props.filter (fun p => fieldQualifies p.2) ≠ [] := by
        intro h0
        rw [h0] at hne
        exact hne rfl
      obtain ⟨x, hx⟩ := List.exists_mem_of_ne_nil _ hf
      have hx' := List.mem_filter.1 hx
      exact ⟨x, hx'.1, by simpa using hx'.2⟩
    · rintro ⟨p, hpmem, hq⟩ h0
      rw [List.map_eq_nil_iff] at h0
      have hmem : p ∈ props.filter (fun p => fieldQualifies p.2) :=
        List.mem_filter.2 ⟨hpmem, hq⟩
      rw [h0] at hmem
      exact absurd hmem (List.not_mem_nil _)
  · intro h
    unfold buildSearchRequest
    rw [if_pos (by rw [h]; rfl)]

theorem C3_witness :
    dhasKey (buildSearchRequest "idx" [] mapWithText) "highlight" = true
    ∧ (computeTextFields mapWithText ≠ []
        ↔ ∃ p ∈ [("title", JVal.obj [("type", JVal.str "text")]),
                 ("price", JVal.obj [("type", JVal.str "float")])],
            fieldQualifies p.2 = true)
    ∧ buildSearchRequest "idx" [("size", JVal.num 3)] (JVal.obj [])
        = pyDict (("index", JVal.str "idx") :: [("size", JVal.num 3)]) := by
  have hct : computeTextFields mapWithText = [("title", JVal.obj [])] := rfl
  refine ⟨?_, ?_, ?_⟩
  · exact (C3_highlight_iff "idx" [] mapWithText).1.mpr
      (Or.inl (by rw [hct]; exact List.cons_ne_nil _ _))
  · exact (C3_highlight_iff "idx" [] mapWithText).2.1 _ rfl
  · exact (C3_highlight_iff "idx" [("size", JVal.num 3)] (JVal.obj [])).2.2 rfl

/-- C10: every key of `query_body` other than `"highlight"` reaches the
outgoing search request with its value unchanged (the merge
`\x7b"index": index, **query_body\x7d` lets `query_body` win); whenever the
mapping yields a non-empty highlight field set, the `"highlight"` key of
the request is the computed block, overwriting any caller-supplied one. -/
theorem C10_query_body_passthrough (index : String) (qb : List (String × JVal))
    (m : JVal) :
    (∀ k v, (qb.map Prod.fst).Nodup → k ≠ "highlight" → dlookup qb k = some v →
        dlookup (buildSearchRequest index qb m) k = some v)
    ∧ (computeTextFields m ≠ [] →
        dlookup (buildSearchRequest index qb m) "highlight"
          = some (highlightBlock m)) := by
  constructor
  · intro k v hnd hk hv
    unfold buildSearchRequest
    have hbase : dlookup (pyDict (("index", JVal.str index) :: qb)) k = some v := by
      unfold pyDict
      rw [List.foldl_cons, dlookup_foldl_dinsert qb hnd, hv]
    by_cases h : (computeTextFields m).isEmpty
    · rw [if_pos h]
      exact hbase
    · rw [if_neg h, dlookup_dinsert]
      rw [if_neg (fun he => hk he.symm)]
      exact hbase
  · intro hne
    unfold buildSearchRequest
    rw [if_neg (fun h0 => hne (List.isEmpty_iff.1 h0)), dlookup_dinsert]
    rw [if_pos rfl]

theorem C10_witness :
    dlookup (buildSearchRequest "idx"
        [("size", JVal.num 3), ("highlight", JVal.obj [])] mapWithText) "size"
      = some (JVal.num 3)
    ∧ dlookup (buildSearchRequest "idx"
        [("size", JVal.num 3), ("highlight", JVal.obj [])] mapWithText) "highlight"
      = some (highlightBlock mapWithText) := by
  have hct : computeTextFields mapWithText = [("title", JVal.obj [])] := rfl
  refine ⟨?_, ?_⟩
  · exact (C10_query_body_passthrough "idx"
      [("size", JVal.num 3), ("highlight", JVal.obj [])] mapWithText).1 "size"
      (JVal.num 3) (by decide) (by decide) rfl
  · exact (C10_query_body_passthrough "idx"
      [("size", JVal.num 3), ("highlight", JVal.obj [])] mapWithText).2
      (by rw [hct]; exact List.cons_ne_nil _ _)

/-- C4: the hit formatter renders each highlight-map field with a non-empty
fragment list as one `"<field> (highlighted): ..."` line (fragments joined
by `" ... "`), renders each source field absent from the highlight map as a
raw `"<field>: <json>"` line, renders no raw line for any highlighted
field, and separates hits with the `"\n\n---\n\n"` divider. -/
theorem C4_hit_formatting :
    (∀ (h : List (String × List String)) (s : List (String × JVal)),
        hitTextLoop h s
          = (h.filter fun p => !p.2.isEmpty).map (fun p => mkHighlightLine p.1 p.2)
            ++ (s.filter fun p => !(h.any fun q => q.1 == p.1)).map
                 (fun p => mkSourceLine p.1 p.2))
    ∧ (∀ (h : List (String × List String)) (s : List (String × JVal)) (f : String),
        (h.any fun q => q.1 == f) = true →
          f ∉ (s.filter fun p => !(h.any fun q => q.1 == p.1)).map Prod.fst)
    ∧ (∀ header t ts, renderSearchResponse header (t :: ts)
          = header ++ "\n\n---\n\n" ++ renderSearchResponse t ts) := by
  refine ⟨hitTextLoop_eq, ?_, ?_⟩
  · intro h s f hf hmem
    rw [List.mem_map] at hmem
    obtain ⟨p, hp, hfst⟩ := hmem
    have h2 := (List.mem_filter.1 hp).2
    subst hfst
    simp only [hf] at h2
    exact absurd h2 (by simp)
  · intro header t ts
    rfl

theorem C4_witness :
    hitTextLoop [("title", ["f1", "f2"])]
        [("title", JVal.str "t"), ("price", JVal.num 5)]
      = ["title (highlighted): f1 ... f2", "price: 5"]
    ∧ "title" ∉ (([("title", JVal.str "t"), ("price", JVal.num 5)]).filter
          fun p => !([("title", ["f1", "f2"])].any fun q => q.1 == p.1)).map Prod.fst
    ∧ renderSearchResponse "hdr" ["h1", "h2"] = "hdr\n\n---\n\nh1\n\n---\n\nh2" := by
  refine ⟨?_, ?_, ?_⟩
  · rw [C4_hit_formatting.1 [("title", ["f1", "f2"])]
      [("title", JVal.str "t"), ("price", JVal.num 5)]]
    rfl
  · exact C4_hit_formatting.2.1 [("title", ["f1", "f2"])]
      [("title", JVal.str "t"), ("price", JVal.num 5)] "title" (by decide)
  · rw [C4_hit_formatting.2.2 "hdr" "h1" ["h2"]]
    rfl

lemma key_unique_of_nodup (h : List (String × List String))
    (hnd : (h.map Prod.fst).Nodup) (p q : String × List String)
    (hp : p ∈ h) (hq : q ∈ h) (hk : p.1 = q.1) : p = q :=
  List.inj_on_of_nodup_map hnd hp hq hk

lemma any_filter_ne (h : List (String × List String)) (f k : String)
    (hk : k ≠ f) :
    ((h.filter fun p => p.1 != f).any fun q => q.1 == k)
      = (h.any fun q => q.1 == k) := by
  induction h with
  | nil => rfl
  | cons x t ih =>
      by_cases hx : x.1 = f
      · have hxk : (x.1 == k) = false := by
          rw [hx]
          exact beq_eq_false_iff_ne.2 (Ne.symm hk)
        rw [List.filter_cons_of_neg (by simp [hx]), ih, List.any_cons, hxk,
          Bool.false_or]
      · rw [List.filter_cons_of_pos (by simp [hx]), List.any_cons, List.any_cons, ih]

/-- C9: a field whose highlight entry is the empty fragment list is omitted
from the hit's output entirely — the formatted lines coincide with those of
the hit with the field deleted from both the highlight map and the source
payload, so neither a highlighted line nor a raw line mentions it. -/
theorem C9_empty_highlight_omits_field (h : List (String × List String))
    (s : List (String × JVal)) (f : String) (v : JVal)
    (hnd : (h.map Prod.fst).Nodup) (hf : (f, ([] : List String)) ∈ h)
    (hv : (f, v) ∈ s) :
    hitTextLoop h s
      = hitTextLoop (h.filter fun p => p.1 != f) (s.filter fun p => p.1 != f) := by
  rw [hitTextLoop_eq, hitTextLoop_eq]
  congr 1
  · rw [List.filter_filter]
    apply congrArg
    apply List.filter_congr
    intro p hp
    by_cases hpf : p.1 = f
    · have hpe : p = (f, []) :=
        key_unique_of_nodup h hnd p (f, []) hp hf (by simpa using hpf)
      simp [hpe]
    · simp [hpf]
  · apply congrArg
    rw [List.filter_filter]
    apply List.filter_congr
    intro p hp
    by_cases hpf : p.1 = f
    · have hany : (h.any fun q => q.1 == p.1) = true :=
        List.any_eq_true.2 ⟨(f, []), hf, by simp [hpf]⟩
      have h1 : (p.1 != f) = false := by simp [hpf]
      rw [hany, h1, Bool.and_false]
      rfl
    · rw [any_filter_ne h f p.1 hpf]
      have h2 : (p.1 != f) = true := by simp [hpf]
      rw [h2, Bool.and_true]

theorem C9_witness :
    hitTextLoop [("title", ["f1"]), ("desc", [])]
        [("title", JVal.str "t"), ("desc", JVal.str "d")]
      = hitTextLoop
          ([("title", ["f1"]), ("desc", [])].filter fun p => p.1 != "desc")
          ([("title", JVal.str "t"), ("desc", JVal.str "d")].filter
            fun p => p.1 != "desc") := by
  exact C9_empty_highlight_omits_field [("title", ["f1"]), ("desc", [])]
    [("title", JVal.str "t"), ("desc", JVal.str "d")] "desc" (JVal.str "d")
    (by decide) (by simp) (by simp)

/-- C6: when `fields` is a non-empty string other than the `"_source"`
sentinel, the outgoing query's `_source` projection is exactly the
comma-split list of the field names; when `fields` is `"_source"` or empty,
no `_source` key is added to the query. -/
theorem C6_fields_projection (query_text fields : String) (size from_ : Int) :
    (fields ≠ "" → fields ≠ "_source" →
        dlookup (buildQueryStringQuery query_text fields size from_) "_source"
          = some (.arr ((fields.splitOn ",").map JVal.str)))
    ∧ ((fields = "" ∨ fields = "_source") →
        dlookup (buildQueryStringQuery query_text fields size from_) "_source"
          = none) := by
  constructor
  · intro h1 h2
    unfold buildQueryStringQuery
    rw [if_pos ⟨h1, h2⟩]
    rfl
  · intro h
    unfold buildQueryStringQuery
    rw [if_neg ?_]
    · rfl
    · rintro ⟨h1, h2⟩
      rcases h with h | h
      · exact h1 h
      · exact h2 h

theorem C6_witness :
    dlookup (buildQueryStringQuery "q" "title,price" 10 0) "_source"
      = some (.arr (("title,price".splitOn ",").map JVal.str))
    ∧ dlookup (buildQueryStringQuery "q" "_source" 10 0) "_source" = none
    ∧ dlookup (buildQueryStringQuery "q" "" 10 0) "_source" = none := by
  refine ⟨?_, ?_, ?_⟩
  · exact (C6_fields_projection "q" "title,price" 10 0).1 (by decide) (by decide)
  · exact (C6_fields_projection "q" "_source" 10 0).2 (Or.inr rfl)
  · exact (C6_fields_projection "q" "" 10 0).2 (Or.inl rfl)

/-- C7: the search tool's total-hit extraction succeeds on both shapes of
`hits.total`: a scalar number is returned as-is, and an object carrying a
`"value"` key yields that value. -/
theorem C7_total_extraction :
    (∀ n : Int, extractTotal (JVal.num n) = .ok (JVal.num n))
    ∧ (∀ kvs v, dlookup kvs "value" = some v →
        extractTotal (JVal.obj kvs) = .ok v) := by
  constructor
  · intro n
    rfl
  · intro kvs v hv
    simp [extractTotal, JVal.idx, hv]

theorem C7_witness :
    extractTotal (JVal.num 42) = .ok (JVal.num 42)
    ∧ extractTotal (JVal.obj [("value", JVal.num 42), ("relation", JVal.str "eq")])
        = .ok (JVal.num 42) :=
  ⟨C7_total_extraction.1 42, C7_total_extraction.2 _ _ rfl⟩

/-- C8 fails as stated: the catalog pagination counts catalog rows, not
documents, so with a single index `articles` the tool clamps
`list_indices(page=3, page_size=10)` to `current_page = 1`,
`total_pages = 1`, with 1 entry on the page — not
`current_page = 3, total_pages = 3` with 5 entries. -/
theorem C8_counterexample :
    (list_indices_core [articlesEntry] (some 3) (some 10)).map
        (fun d => (d.current_page, d.total_pages, d.indices_on_page))
      = some (1, 1, 1)
    ∧ ((1, 1, 1) : Int × Int × Nat) ≠ (3, 3, 5) := by
  exact ⟨rfl, by decide⟩

/-- C8 (amended): with a catalog holding the single index `articles`
(however many documents it holds), `list_indices(page=3, page_size=10)`
clamps to the one existing catalog page: `total_indices = 1`,
`current_page = 1`, `page_size = 10`, `total_pages = 1`,
`indices_on_page = 1`, with the entry's values projected from the catalog
row. -/
theorem C8_amended :
    list_indices_core [articlesEntry] (some 3) (some 10)
      = some ⟨1, 1, 10, 1, 1, [indexInfoOf articlesEntry]⟩ := rfl

lemma error_starts (pre rest : String) (hp : pre = "Error" ++ rest)
    (e : String) : ∃ r, pre ++ e = "Error" ++ r :=
  ⟨rest ++ e, by rw [hp, String.append_assoc]⟩

/-- C5: every tool converts any exception raised inside its body into a
returned string beginning with `"Error"`, and every resource converts one
into a JSON object carrying an `"error"` key; being total functions of
their inputs, no tool or resource surfaces an exception to the caller. -/
theorem C5_error_handling :
    (∀ es page page_size e, list_indices_body es page page_size = .error e →
        ∃ r, list_indices es page page_size = "Error" ++ r)
    ∧ (∀ es index e, get_mappings_body es index = .error e →
        ∃ r, get_mappings es index = "Error" ++ r)
    ∧ (∀ es index qb e, search_body es index qb = .error e →
        ∃ r, search es index qb = "Error" ++ r)
    ∧ (∀ es i q f sz fr e,
        search_with_query_string_body es i q f sz fr = .error e →
        ∃ r, search_with_query_string es i q f sz fr = "Error" ++ r)
    ∧ (∀ es i e, get_index_stats_body es i = .error e →
        ∃ r, get_index_stats es i = "Error" ++ r)
    ∧ (∀ ok es i e, get_index_resource_body es i = .error e →
        ∃ kvs, get_index_resource ok es i = .obj kvs ∧ dhasKey kvs "error" = true)
    ∧ (∀ ok es i e, get_mapping_resource_body es i = .error e →
        ∃ kvs, get_mapping_resource ok es i = .obj kvs ∧ dhasKey kvs "error" = true)
    ∧ (∀ ok ti es e,
        list_indices_resource_body es (resourceParams ti).1 (resourceParams ti).2
            = .error e →
        ∃ kvs, list_indices_resource ok ti es = .obj kvs
          ∧ dhasKey kvs "error" = true) := by
  refine ⟨?_, ?_, ?_, ?_, ?_, ?_, ?_, ?_⟩
  · intro es page page_size e h
    have hgoal : list_indices es page page_size = "Error listing indices: " ++ e := by
      unfold list_indices
      rw [h]
    rw [hgoal]
    exact error_starts _ " listing indices: " rfl e
  · intro es index e h
    have hgoal : get_mappings es index = "Error: " ++ e := by
      unfold get_mappings
      rw [h]
    rw [hgoal]
    exact error_starts _ ": " rfl e
  · intro es index qb e h
    have hgoal : search es index qb = "Error: " ++ e := by
      unfold search
      rw [h]
    rw [hgoal]
    exact error_starts _ ": " rfl e
  · intro es i q f sz fr e h
    have hgoal : search_with_query_string es i q f sz fr
        = ("Error searching index " ++ i ++ ": ") ++ e := by
      unfold search_with_query_string
      rw [h]
    rw [hgoal]
    refine error_starts _ (" searching index " ++ (i ++ ": ")) ?_ e
    rw [show ("Error searching index " : String)
        = "Error" ++ " searching index " from rfl,
      String.append_assoc, String.append_assoc]
  · intro es i e h
    have hgoal : get_index_stats es i
        = ("Error getting stats for index " ++ i ++ ": ") ++ e := by
      unfold get_index_stats
      rw [h]
    rw [hgoal]
    refine error_starts _ (" getting stats for index " ++ (i ++ ": ")) ?_ e
    rw [show ("Error getting stats for index " : String)
        = "Error" ++ " getting stats for index " from rfl,
      String.append_assoc, String.append_assoc]
  · intro ok es i e h
    cases ok with
    | false =>
        exact ⟨[("error",
          JVal.str "Internal server error: Context not initialized")], rfl, rfl⟩
    | true =>
        refine ⟨[("error",
          JVal.str ("Error retrieving index information: " ++ e))], ?_, rfl⟩
        unfold get_index_resource
        rw [h]
        rfl
  · intro ok es i e h
    cases ok with
    | false =>
        exact ⟨[("error",
          JVal.str "Internal server error: Context not initialized")], rfl, rfl⟩
    | true =>
        refine ⟨[("error",
          JVal.str ("Error retrieving mapping information: " ++ e))], ?_, rfl⟩
        unfold get_mapping_resource
        rw [h]
        rfl
  · intro ok ti es e h
    cases ok with
    | false =>
        exact ⟨[("error",
          JVal.str "Internal server error: Context or ES client not initialized")],
          rfl, rfl⟩
    | true =>
        rcases hrp : resourceParams ti with ⟨pg, ps⟩
        rw [hrp] at h
        simp only at h
        refine ⟨[("error", JVal.str ("Error listing indices: " ++ e))], ?_, rfl⟩
        unfold list_indices_resource
        rw [hrp]
        simp only
        rw [h]
        rfl

theorem C5_witness :
    (∃ r, list_indices esBad none none = "Error" ++ r)
    ∧ (∃ r, get_mappings esBad "idx" = "Error" ++ r)
    ∧ (∃ r, search esBad "idx" [] = "Error" ++ r)
    ∧ (∃ r, search_with_query_string esBad "idx" "q" "_source" 10 0 = "Error" ++ r)
    ∧ (∃ r, get_index_stats esBad "idx" = "Error" ++ r)
    ∧ (∃ kvs, get_index_resource true esBad "idx" = .obj kvs
        ∧ dhasKey kvs "error" = true)
    ∧ (∃ kvs, get_mapping_resource true esBad "idx" = .obj kvs
        ∧ dhasKey kvs "error" = true)
    ∧ (∃ kvs, list_indices_resource true none esBad = .obj kvs
        ∧ dhasKey kvs "error" = true) :=
  ⟨C5_error_handling.1 esBad none none "boom" rfl,
   C5_error_handling.2.1 esBad "idx" "boom" rfl,
   C5_error_handling.2.2.1 esBad "idx" [] "boom" rfl,
   C5_error_handling.2.2.2.1 esBad "idx" "q" "_source" 10 0 "boom" rfl,
   C5_error_handling.2.2.2.2.1 esBad "idx" "boom" rfl,
   C5_error_handling.2.2.2.2.2.1 true esBad "idx" "boom" rfl,
   C5_error_handling.2.2.2.2.2.2.1 true esBad "idx" "boom" rfl,
   C5_error_handling.2.2.2.2.2.2.2 true none esBad "boom" rfl⟩
